import Mathlib

/-!
# Verification of the cee-de-en asset server (`src/main.rs`)

Shallow embedding of the single-file Rust HTTP asset server.  The server
receives requests, strips the leading `/` from the URI path to obtain a
path key, consults a per-connection `HashMap` cache, and on a miss loads
the file (substituting a fallback message when the read fails), minifies
it when the path ends in `.html`/`.js`/`.css`, Brotli-compresses the
result (the non-empty minified buffer, else the raw bytes), inserts the
compressed bytes into the cache, and serves them via `serve_content`.

The minifier (`minify_html::minify`) and the compressor (`brotlic`
writer) are external crates; the embedding takes them as function
parameters.  The compressor is fallible (`write_all`/`into_inner` return
`Result` and the source calls `.unwrap()` on them): a compressor error
is modelled as `Except.error ()`, and a handler result of
`Except.error ()` models the source's `unwrap` panic terminating the
serving task/process.
-/

namespace CDN

/-- Byte sequences, as in Rust's `Vec<u8>`. -/
abbrev Bytes := List Nat

/-- `String::into_bytes` / `Body::from(&str)`: the bytes of a string. -/
def strBytes (s : String) : Bytes := s.data.map Char.toNat

/-- An HTTP request as far as the server inspects it: its method and its
URI path (`req.method()` and `req.uri().path()`). -/
structure Request where
  method : String
  uriPath : String
deriving DecidableEq

/-- The response fields the server constructs: status code, the two
headers it ever sets, and the body bytes. -/
structure Response where
  status : Nat
  contentEncoding : Option String
  contentType : Option String
  body : Bytes
deriving DecidableEq

/-- `serve_content` from `src/main.rs`: every GET request is answered
`200 OK` with `content-encoding: br`, a hardcoded
`content-type: text/javascript`, and the given content bytes; every
other method is answered `404` with body `"No such resource"`. -/
def serve_content (req : Request) (content : Bytes) : Response :=
  if req.method = "GET" then
    { status := 200
      contentEncoding := some "br"
      contentType := some "text/javascript"
      body := content }
  else
    { status := 404
      contentEncoding := none
      contentType := none
      body := strBytes "No such resource" }

/-- `str::ends_with`, computed on the character list so that it reduces
in the kernel. -/
def strEndsWith (s suffix : String) : Bool :=
  suffix.data.isSuffixOf s.data

/-- Chopping off the initial `/` of the URI path (`&path[1..]` of
`src/main.rs` line 62), on the character list so that it reduces. -/
def dropSlash (s : String) : String := String.mk (s.data.drop 1)

/-- The suffix check of `src/main.rs` line 85: minification applies
exactly when the path string ends with `.html`, `.js` or `.css`. -/
def minifiable (pathString : String) : Bool :=
  strEndsWith pathString ".html" || strEndsWith pathString ".js" || strEndsWith pathString ".css"

/-- A minifier `bytes -> bytes` (the external `minify_html::minify` with
its fixed configuration). -/
def Minifier := Bytes → Bytes

/-- A compressor: the external Brotli writer.  `Except.error ()` models
the `Err` case of `write_all`/`into_inner` that the source `unwrap`s. -/
def Compressor := Bytes → Except Unit Bytes

/-- The filesystem as seen through `fs::read`: `none` models a failed
read (missing file). -/
def Fs := String → Option Bytes

/-- The transform block of `src/main.rs` lines 81-110: `minified` starts
empty and is filled only when the path is minifiable; the compressor is
then run on `minified` when that buffer is non-empty and on the raw
`file_contents` otherwise. -/
def transformPipeline (minify : Minifier) (compress : Compressor)
    (pathString : String) (fileContents : Bytes) : Except Unit Bytes :=
  let minified := if minifiable pathString then minify fileContents else []
  if minified.length > 0 then compress minified else compress fileContents

/-- The cache (`HashMap<String, Arc<Vec<u8>>>`), modelled as an
association list; the server only ever inserts absent keys. -/
abbrev Cache := List (String × Bytes)

/-- `HashMap::get` (and `contains_key` via `isSome`). -/
def cacheLookup (cache : Cache) (key : String) : Option Bytes :=
  match cache with
  | [] => none
  | (k, v) :: rest => if k = key then some v else cacheLookup rest key

/-- What one request produces: the response served, the cache state
afterwards, and how many times the transform pipeline ran (0 on a cache
hit, 1 on a miss). -/
structure HandleResult where
  response : Response
  cache : Cache
  pipelineRuns : Nat
deriving DecidableEq

/-- The per-request service closure of `src/main.rs` lines 57-122:
strip the leading `/`, check the cache; on a hit serve the cached bytes
unchanged; on a miss read the file (falling back to the
`Nope, no <path> found here m8` message when the read fails), run the
transform pipeline, insert the compressed bytes under the path key, and
serve them.  `Except.error ()` is the source's `unwrap` panic on a
compressor error. -/
def handleRequest (minify : Minifier) (compress : Compressor) (fs : Fs)
    (cache : Cache) (req : Request) : Except Unit HandleResult :=
  let pathString := dropSlash req.uriPath
  let pathKey := pathString
  match cacheLookup cache pathKey with
  | some cached =>
      Except.ok { response := serve_content req cached, cache := cache, pipelineRuns := 0 }
  | none =>
      let fileContents :=
        (fs pathString).getD (strBytes ("Nope, no " ++ pathString ++ " found here m8"))
      match transformPipeline minify compress pathString fileContents with
      | Except.error e => Except.error e
      | Except.ok compressedFile =>
          Except.ok { response := serve_content req compressedFile
                      cache := (pathKey, compressedFile) :: cache
                      pipelineRuns := 1 }

/-- The outcome of one connection: the responses served on it, the final
cache state of that connection's cache, and the total number of
transform-pipeline executions. -/
structure ConnResult where
  responses : List Response
  finalCache : Cache
  pipelineRuns : Nat
deriving DecidableEq

/-- Requests arriving on one connection are handled in sequence against
that connection's cache (the `service_fn` closure is `FnMut`, so
requests of a single connection cannot interleave). -/
def handleConn (minify : Minifier) (compress : Compressor) (fs : Fs) :
    List Request → Cache → Except Unit ConnResult
  | [], cache => Except.ok { responses := [], finalCache := cache, pipelineRuns := 0 }
  | req :: rest, cache =>
      match handleRequest minify compress fs cache req with
      | Except.error e => Except.error e
      | Except.ok r =>
          match handleConn minify compress fs rest r.cache with
          | Except.error e => Except.error e
          | Except.ok tail =>
              Except.ok { responses := r.response :: tail.responses
                          finalCache := tail.finalCache
                          pipelineRuns := r.pipelineRuns + tail.pipelineRuns }

/-- The server as built in `main` (`src/main.rs` lines 51-123): the
`make_service_fn` closure creates a FRESH, EMPTY `processed_cache` for
every accepted connection, so each connection's requests are handled
against its own cache starting from `[]`. -/
def serverRun (minify : Minifier) (compress : Compressor) (fs : Fs) :
    List (List Request) → Except Unit (List ConnResult)
  | [] => Except.ok []
  | conn :: rest =>
      match handleConn minify compress fs conn [] with
      | Except.error e => Except.error e
      | Except.ok r =>
          match serverRun minify compress fs rest with
          | Except.error e => Except.error e
          | Except.ok tail => Except.ok (r :: tail)

/- ### Extractors used to state concrete evaluation theorems -/

/-- Default response used by the extractors below. -/
def emptyResponse : Response :=
  { status := 0, contentEncoding := none, contentType := none, body := [] }

/-- Default per-connection result used by the extractors below. -/
def emptyConnResult : ConnResult :=
  { responses := [], finalCache := [], pipelineRuns := 0 }

/-- Did the request complete without hitting an `unwrap` panic? -/
def isOkResult : Except Unit HandleResult → Bool
  | Except.ok _ => true
  | Except.error _ => false

/-- The response of a completed request (default on panic). -/
def theResponse : Except Unit HandleResult → Response
  | Except.ok r => r.response
  | Except.error _ => emptyResponse

/-- The cache state after a completed request (default on panic). -/
def theCache : Except Unit HandleResult → Cache
  | Except.ok r => r.cache
  | Except.error _ => []

/-- Pipeline executions of a completed request (default on panic). -/
def theRuns : Except Unit HandleResult → Nat
  | Except.ok r => r.pipelineRuns
  | Except.error _ => 0

/-- Total transform-pipeline executions across one connection (default
on panic). -/
def connRuns : Except Unit ConnResult → Nat
  | Except.ok r => r.pipelineRuns
  | Except.error _ => 0

/-- Total transform-pipeline executions across a whole server run. -/
def totalRuns : Except Unit (List ConnResult) → Nat
  | Except.ok rs => (rs.map (fun r => r.pipelineRuns)).sum
  | Except.error _ => 0

/-- The result of the `i`-th connection of a server run. -/
def connAt (e : Except Unit (List ConnResult)) (i : Nat) : ConnResult :=
  match e with
  | Except.ok rs => rs.getD i emptyConnResult
  | Except.error _ => emptyConnResult

/- ### Concrete instantiations for evaluation -/

/-- A stand-in minifier for concrete evaluation: the identity. -/
def idMinify : Minifier := fun b => b

/-- A stand-in minifier for concrete evaluation that always produces the
empty buffer. -/
def emptyMinify : Minifier := fun _ => []

/-- A stand-in deterministic compressor for concrete evaluation: prefix
a `0` byte (injective, never fails). -/
def consCompress : Compressor := fun b => Except.ok (0 :: b)

/-- A compressor whose write fails, exercising the source's `unwrap`. -/
def failCompress : Compressor := fun _ => Except.error ()

/-- A GET request for the given URI path. -/
def getReq (p : String) : Request := { method := "GET", uriPath := p }

/-- A filesystem containing only `app.js`. -/
def fsApp : Fs := fun p =>
  if p = "app.js" then some (strBytes "function f()\x7b return 1; \x7d") else none

/-- The empty filesystem: every read fails. -/
def fsEmpty : Fs := fun _ => none

/-- A filesystem with a file reachable only by `..` traversal out of the
served root. -/
def fsTraversal : Fs := fun p =>
  if p = "../../etc/passwd" then some (strBytes "root:x:0:0") else none

/-- A filesystem containing only the non-minifiable `data.bin`. -/
def fsData : Fs := fun p => if p = "data.bin" then some [1, 2, 3] else none

/-! ## Theorems settling the claims -/

/-- Claim C1 (refuted by the code, as the spec itself flags): two
requests for the same uncached key `app.js` arriving on two different
connections run the transform pipeline twice — each connection's fresh
`processed_cache` misses — instead of at most once. -/
theorem c1_two_connections_run_pipeline_twice :
    totalRuns (serverRun idMinify consCompress fsApp
      [[getReq "/app.js"], [getReq "/app.js"]]) = 2 := by decide

/-- Claim C2 (refuted by the code, as the spec itself flags): the cache
is not process-wide.  After connection 0 commits an entry for `app.js`
into its cache, connection 1 — created with a fresh empty cache by the
`make_service_fn` closure — still misses and recomputes (one pipeline
run of its own). -/
theorem c2_cache_is_per_connection :
    (cacheLookup (connAt (serverRun idMinify consCompress fsApp
        [[getReq "/app.js"], [getReq "/app.js"]]) 0).finalCache "app.js").isSome = true ∧
    (connAt (serverRun idMinify consCompress fsApp
        [[getReq "/app.js"], [getReq "/app.js"]]) 1).pipelineRuns = 1 := by decide

/-- Claim C3 (refuted by the code): a GET for `nya.js` on an empty
filesystem is answered with status `200`, not `404`, and its body is
the COMPRESSED fallback message (here under the stand-in compressor:
a `0` byte prepended), not a plain-text body. -/
theorem c3_missing_file_answered_200 :
    (theResponse (handleRequest idMinify consCompress fsEmpty []
        (getReq "/nya.js"))).status = 200 ∧
    (theResponse (handleRequest idMinify consCompress fsEmpty []
        (getReq "/nya.js"))).body = 0 :: strBytes "Nope, no nya.js found here m8" := by decide

/-- Claim C4 (refuted by the code): the failed read for `ghost.js` DOES
leave a cache entry (the compressed fallback message), and a second
request for the same key is served from that cached negative result —
across the two requests the pipeline runs only once, so no re-attempt
happens. -/
theorem c4_not_found_is_cached :
    (cacheLookup (theCache (handleRequest idMinify consCompress fsEmpty []
        (getReq "/ghost.js"))) "ghost.js").isSome = true ∧
    connRuns (handleConn idMinify consCompress fsEmpty
        [getReq "/ghost.js", getReq "/ghost.js"] []) = 1 := by decide

/-- Claim C5 (refuted by the code, as the spec itself flags): the
request path `/../../etc/passwd` is neither rejected nor neutralized:
the handler reads the traversal path from the filesystem and serves its
(compressed) contents with status `200`. -/
theorem c5_traversal_path_is_served :
    (theResponse (handleRequest idMinify consCompress fsTraversal []
        (getReq "/../../etc/passwd"))).status = 200 ∧
    (theResponse (handleRequest idMinify consCompress fsTraversal []
        (getReq "/../../etc/passwd"))).body = 0 :: strBytes "root:x:0:0" := by decide

/-- Claim C6 (refuted by the code, as the spec itself flags): for the
`other`-category path `data.bin` the response's `content-type` is the
hardcoded `text/javascript`, not an octet-stream type. -/
theorem c6_content_type_hardcoded :
    (theResponse (handleRequest idMinify consCompress fsData []
        (getReq "/data.bin"))).contentType = some "text/javascript" ∧
    (theResponse (handleRequest idMinify consCompress fsData []
        (getReq "/data.bin"))).contentType ≠ some "application/octet-stream" := by decide

/-- Claim C7 (refuted by the code): on a compressor failure the handler
does not fall back to the raw bytes — the source's `unwrap` panic
(modelled as `Except.error`) terminates the handling instead of
producing any HTTP response. -/
theorem c7_compressor_failure_panics :
    isOkResult (handleRequest idMinify failCompress fsData []
      (getReq "/data.bin")) = false := by decide

/-- Helper for C8: a request whose handling just succeeded is, when
re-handled against the resulting cache, a pure cache hit: the same
response, an unchanged cache, and no pipeline run. -/
theorem handle_again_is_hit (minify : Minifier) (compress : Compressor) (fs : Fs)
    (cache : Cache) (req : Request) (r : HandleResult)
    (h : handleRequest minify compress fs cache req = Except.ok r) :
    handleRequest minify compress fs r.cache req =
      Except.ok { response := r.response, cache := r.cache, pipelineRuns := 0 } := by
  simp only [handleRequest] at h ⊢
  cases hcl : cacheLookup cache (dropSlash req.uriPath) with
  | some v =>
      rw [hcl] at h
      simp only [Except.ok.injEq] at h
      subst h
      simp [hcl]
  | none =>
      rw [hcl] at h
      cases hcp : transformPipeline minify compress (dropSlash req.uriPath)
          ((fs (dropSlash req.uriPath)).getD
            (strBytes ("Nope, no " ++ dropSlash req.uriPath ++ " found here m8"))) with
      | error e => rw [hcp] at h; exact absurd h (by simp)
      | ok compressedFile =>
          rw [hcp] at h
          simp only [Except.ok.injEq] at h
          subst h
          simp [cacheLookup]

/-- Claim C8 (confirmed): once a `get_or_compute`-style lookup for a
path key has succeeded against a fixed filesystem, every later repeated
request for that key (any number `n` of them) is served from the cache:
the pipeline runs zero further times, the cache stays unchanged, and
every response — in particular its body bytes — is identical to the
first result. -/
theorem c8_repeated_requests_identical (minify : Minifier) (compress : Compressor)
    (fs : Fs) (cache : Cache) (req : Request) (n : Nat)
    (h : isOkResult (handleRequest minify compress fs cache req) = true) :
    handleConn minify compress fs (List.replicate n req)
        (theCache (handleRequest minify compress fs cache req)) =
      Except.ok
        { responses := List.replicate n
            (theResponse (handleRequest minify compress fs cache req))
          finalCache := theCache (handleRequest minify compress fs cache req)
          pipelineRuns := 0 } := by
  cases heq : handleRequest minify compress fs cache req with
  | error e => rw [heq] at h; simp [isOkResult] at h
  | ok r =>
      simp only [heq, theCache, theResponse]
      have hagain := handle_again_is_hit minify compress fs cache req r heq
      induction n with
      | zero => simp [handleConn, List.replicate]
      | succ n ih =>
          rw [List.replicate_succ]
          simp only [handleConn, hagain, ih]
          simp [List.replicate_succ]

/-- Witness for C8 at a concrete input: the `app.js` filesystem, the
stand-in minifier and compressor, three repeated requests. -/
theorem c8_witness :
    isOkResult (handleRequest idMinify consCompress fsApp [] (getReq "/app.js")) = true ∧
    handleConn idMinify consCompress fsApp (List.replicate 3 (getReq "/app.js"))
        (theCache (handleRequest idMinify consCompress fsApp [] (getReq "/app.js"))) =
      Except.ok
        { responses := List.replicate 3
            (theResponse (handleRequest idMinify consCompress fsApp [] (getReq "/app.js")))
          finalCache := theCache (handleRequest idMinify consCompress fsApp [] (getReq "/app.js"))
          pipelineRuns := 0 } :=
  ⟨by decide,
   c8_repeated_requests_identical idMinify consCompress fsApp [] (getReq "/app.js") 3
     (by decide)⟩

/-- Claim C9 (confirmed): for a non-minifiable path the transform
pipeline compresses exactly the raw loaded bytes; since this holds for
EVERY minifier argument, the minifier is never invoked (the output does
not depend on it). -/
theorem c9_passthrough_other (minify : Minifier) (compress : Compressor)
    (pathString : String) (raw : Bytes) (h : minifiable pathString = false) :
    transformPipeline minify compress pathString raw = compress raw := by
  unfold transformPipeline
  rw [h]
  simp

/-- Witness for C9 at a concrete input: the non-minifiable `data.bin`. -/
theorem c9_witness :
    minifiable "data.bin" = false ∧
    transformPipeline idMinify consCompress "data.bin" [1, 2, 3] = consCompress [1, 2, 3] :=
  ⟨by decide, c9_passthrough_other idMinify consCompress "data.bin" [1, 2, 3] (by decide)⟩

/-- Claim C10 (confirmed): for a minifiable path whose minified output
is empty, the pipeline compresses the original raw bytes — the branch at
`src/main.rs` line 102 selects the compression input by the minified
buffer's non-emptiness, not by whether minification was attempted. -/
theorem c10_empty_minified_compresses_raw (minify : Minifier) (compress : Compressor)
    (pathString : String) (raw : Bytes) (h1 : minifiable pathString = true)
    (h2 : minify raw = []) :
    transformPipeline minify compress pathString raw = compress raw := by
  unfold transformPipeline
  rw [h1]
  simp [h2]

/-- Witness for C10 at a concrete input: the minifiable `app.js` with a
minifier producing the empty buffer. -/
theorem c10_witness :
    minifiable "app.js" = true ∧ emptyMinify [1, 2] = [] ∧
    transformPipeline emptyMinify consCompress "app.js" [1, 2] = consCompress [1, 2] :=
  ⟨by decide, rfl,
   c10_empty_minified_compresses_raw emptyMinify consCompress "app.js" [1, 2]
     (by decide) rfl⟩

end CDN
